import Mathlib

/-
Verification of the calibration-and-adaptive-scheduling engine of the
lambda-throttling repository.

The embedding models JavaScript numbers by exact rationals (ℚ): every
quantity the claims touch is produced by +, *, /, %, Math.floor, Math.max,
Math.min on values far from any representability boundary, so exact
rational arithmetic agrees with the double-precision evaluation at every
comparison and floor the theorems mention.  Where JavaScript produces the
non-finite values NaN / Infinity / -Infinity (division by zero on an empty
sample set, Math.max of an empty spread), the embedding makes those
outcomes explicit with the `JsNum` type below.

Source functions embedded (names kept from the source):
  * adaptive-lambda-function (src/unnamed/part_003): `safetyFactor`,
    `allowedWorkloadPerInterval`, `calibratedDataSizeKB`,
    `remainingTimeInInterval`, the sleep guard, `throttlingThreshold`,
    `potentialThrottlingEvents`, and the stats aggregation.
  * monitor-metrics.ts: the calibration branch (warmup loop, measurement
    loop, `averageCpuTimePerIterationMs`), the baseline throttle detector
    `isThrottled`, and the ||-defaulted event fields.
-/

/-- Result of a JavaScript numeric expression: a finite (rational) value,
NaN, +Infinity or -Infinity. -/
inductive JsNum where
  | num (q : ℚ)
  | nan
  | inf
  | neginf
deriving DecidableEq, Repr

/-- JavaScript division `a / b` on finite operands (IEEE zero taken as +0):
`0/0 = NaN`, `q/0 = ±Infinity` for `q ≠ 0`, otherwise the exact quotient. -/
def jsDiv (a b : ℚ) : JsNum :=
  if b = 0 then (if a = 0 then JsNum.nan else if 0 < a then JsNum.inf else JsNum.neginf)
  else JsNum.num (a / b)

/- ---------------------------------------------------------------------
   Adaptive Sizer (src/unnamed/part_003, lines 12-31).
   `const throttleIntervalMs = 20;`
   `const safetyFactor = cpuAllocation < 0.3 ? 0.55 : 0.85;`
   `const allowedWorkloadPerInterval = cpuAllocation * throttleIntervalMs * safetyFactor;`
   `const calibratedDataSizeKB = Math.max(1, Math.floor(
      (allowedWorkloadPerInterval / calibrationCpuTimeFor100KBMs) * calibrationDataSizeKB));`
   The quantum is kept as an explicit argument (the source feeds in the
   constant 20) so the claims quantified over ScheduleQuantum are statable.
   --------------------------------------------------------------------- -/

/-- The enforced scheduling quantum, `throttleIntervalMs = 20` in the source. -/
def throttleIntervalMs : ℚ := 20

/-- `cpuAllocation < 0.3 ? 0.55 : 0.85` (part_003 line 20). -/
def safetyFactor (cpuAllocation : ℚ) : ℚ :=
  if cpuAllocation < 3/10 then 55/100 else 85/100

/-- `cpuAllocation * throttleIntervalMs * safetyFactor` (part_003 line 21). -/
def allowedWorkloadPerInterval (cpuAllocation quantum : ℚ) : ℚ :=
  cpuAllocation * quantum * safetyFactor cpuAllocation

/-- `Math.max(1, Math.floor((allowedWorkloadPerInterval / calibrationCpuTimeFor100KBMs)
 * calibrationDataSizeKB))` (part_003 lines 29-31). -/
def calibratedDataSizeKB (cpuAllocation quantum calibrationCpuTimeFor100KBMs
    calibrationDataSizeKB : ℚ) : ℤ :=
  max 1 (Int.floor ((allowedWorkloadPerInterval cpuAllocation quantum /
    calibrationCpuTimeFor100KBMs) * calibrationDataSizeKB))

/-- Modelled from the spec §4.3 formula, for refinement comparison with the
source: `allowedCpuMsPerQuantum = CpuShare * ScheduleQuantum * safetyFactor`
with `safetyFactor = 0.55` when `CpuShare < 0.3` and `0.85` otherwise. -/
def allowedCpuMsPerQuantum (cpuShare scheduleQuantum : ℚ) : ℚ :=
  cpuShare * scheduleQuantum * (if cpuShare < 3/10 then 55/100 else 85/100)

/-- Modelled from the spec §4.3 formula, for refinement comparison with the
source: `calibratedSizeUnits = max(1, floor((allowedCpuMsPerQuantum /
baselineCpuMsPerReferenceUnit) * referenceSizeUnits))`. -/
def calibratedSizeUnits (cpuShare scheduleQuantum baseline referenceSizeUnits : ℚ) : ℤ :=
  max 1 (Int.floor ((allowedCpuMsPerQuantum cpuShare scheduleQuantum / baseline) *
    referenceSizeUnits))

/-- C1: the Adaptive Sizer computes exactly the spec §4.3 formulas —
`allowedCpuMsPerQuantum = CpuShare * ScheduleQuantum * safetyFactor` with the
0.55 / 0.85 safety-factor rule cut at CpuShare 0.3, and
`calibratedSizeUnits = max(1, floor((allowed / baseline) * referenceSize))`;
at CpuShare = 128/1769, quantum 20 ms, baseline 3.6 ms per 100 KB the result
is 22 KB. -/
theorem adaptiveSizer_matches_spec (c q b r : ℚ) (hb : 0 < b) :
    allowedWorkloadPerInterval c q = allowedCpuMsPerQuantum c q ∧
    safetyFactor c = (if c < 3/10 then 55/100 else 85/100) ∧
    calibratedDataSizeKB c q b r = calibratedSizeUnits c q b r ∧
    calibratedDataSizeKB (128/1769) 20 (36/10) 100 = 22 := by
  refine ⟨rfl, rfl, rfl, ?_⟩
  have h1 : ((allowedWorkloadPerInterval (128/1769) 20 / (36/10)) * 100 : ℚ)
      = 352000/15921 := by
    norm_num [allowedWorkloadPerInterval, safetyFactor]
  have h2 : Int.floor ((352000 : ℚ)/15921) = 22 := by
    rw [Int.floor_eq_iff]
    norm_num
  unfold calibratedDataSizeKB
  rw [h1, h2]
  norm_num

/-- Witness for C1 at CpuShare 1/2, quantum 20, baseline 1, reference 100. -/
theorem adaptiveSizer_matches_spec_witness :
    (0 : ℚ) < 1 ∧ calibratedDataSizeKB (1/2) 20 1 100 = calibratedSizeUnits (1/2) 20 1 100 :=
  ⟨by norm_num, (adaptiveSizer_matches_spec (1/2) 20 1 100 (by norm_num)).2.2.1⟩

/-- C3: for every CpuShare in (0, 1], positive baseline and any reference
size, `calibratedDataSizeKB` is at least 1 — the `Math.max(1, …)` clamp
makes the Adaptive Sizer never return zero or a negative size. -/
theorem calibratedDataSizeKB_pos (c b r : ℚ) (hc0 : 0 < c) (hc1 : c ≤ 1) (hb : 0 < b) :
    1 ≤ calibratedDataSizeKB c throttleIntervalMs b r :=
  le_max_left 1 _

/-- Witness for C3 at CpuShare 1/2, baseline 1, reference 100. -/
theorem calibratedDataSizeKB_pos_witness :
    (0 : ℚ) < 1/2 ∧ (1/2 : ℚ) ≤ 1 ∧ (0 : ℚ) < 1 ∧
    1 ≤ calibratedDataSizeKB (1/2) throttleIntervalMs 1 100 :=
  ⟨by norm_num, by norm_num, by norm_num,
    calibratedDataSizeKB_pos (1/2) 1 100 (by norm_num) (by norm_num) (by norm_num)⟩

/- ---------------------------------------------------------------------
   Interval-Aligned Scheduler (src/unnamed/part_003, lines 105-127).
   `const elapsed = iterationEndTime - iterationStartTime;` — both are
   integer Date.now() milliseconds with end ≥ start, so elapsed : ℕ.
   `let remainingTimeInInterval = 0;
    if (elapsed < throttleIntervalMs) {
      remainingTimeInInterval = throttleIntervalMs - elapsed;
    } else {
      remainingTimeInInterval = throttleIntervalMs - (elapsed % throttleIntervalMs);
      if (remainingTimeInInterval === throttleIntervalMs) remainingTimeInInterval = 0;
    }
    if (i < iterations - 1 && remainingTimeInInterval > 0) { ... sleep ... }`
   --------------------------------------------------------------------- -/

/-- The remaining sleep before the next quantum boundary (part_003
lines 111-121), with `throttleIntervalMs = 20`. -/
def remainingTimeInInterval (elapsed : ℕ) : ℕ :=
  if elapsed < 20 then 20 - elapsed
  else
    let r := 20 - elapsed % 20
    if r = 20 then 0 else r

/-- The guard `i < iterations - 1 && remainingTimeInInterval > 0` of the
inter-iteration sleep (part_003 line 123). -/
def sleepGuard (i iterations remaining : ℕ) : Bool :=
  decide (i < iterations - 1) && decide (0 < remaining)

/-- C2 counterexample: elapsed = 0 is an exact non-negative multiple of the
20 ms quantum, yet the code takes the `elapsed < throttleIntervalMs` branch
and computes a full quantum of 20 ms, not 0. -/
theorem remainingTimeInInterval_zero_elapsed :
    20 ∣ 0 ∧ remainingTimeInInterval 0 = 20 ∧ remainingTimeInInterval 0 ≠ 0 := by
  decide

/-- C2 (amended): for every elapsed wall time that is an exact positive
multiple of the 20 ms quantum, the computed remaining sleep is 0, never a
full quantum — the `=== throttleIntervalMs` normalization collapses the
boundary case. -/
theorem remainingTimeInInterval_multiple (elapsed : ℕ) (hpos : 0 < elapsed)
    (hdvd : 20 ∣ elapsed) : remainingTimeInInterval elapsed = 0 := by
  obtain ⟨k, rfl⟩ := hdvd
  have hk : 1 ≤ k := by omega
  have hlt : ¬ (20 * k < 20) := by omega
  have hmod : 20 * k % 20 = 0 := Nat.mul_mod_right 20 k
  simp [remainingTimeInInterval, hlt, hmod]

/-- Witness for the amended C2 at elapsed = 40. -/
theorem remainingTimeInInterval_multiple_witness :
    0 < 40 ∧ 20 ∣ 40 ∧ remainingTimeInInterval 40 = 0 :=
  ⟨by decide, by decide, remainingTimeInInterval_multiple 40 (by decide) (by decide)⟩

/-- C9: for every measured elapsed time the computed remaining sleep lies in
[0, throttleIntervalMs], and on the final iteration (i = iterations - 1) the
sleep guard is false, so no sleep is performed after the final iteration and
a single inter-iteration suspension never exceeds one quantum. -/
theorem scheduler_sleep_invariant (elapsed i n : ℕ) (hn : 0 < n) (hi : i = n - 1) :
    remainingTimeInInterval elapsed ≤ 20 ∧
    sleepGuard i n (remainingTimeInInterval elapsed) = false := by
  constructor
  · unfold remainingTimeInInterval
    split
    · omega
    · dsimp only
      split <;> omega
  · unfold sleepGuard
    simp only [Bool.and_eq_false_iff, decide_eq_false_iff_not]
    left
    omega

/-- Witness for C9 at elapsed = 7, iteration 4 of 5. -/
theorem scheduler_sleep_invariant_witness :
    0 < 5 ∧ (4 : ℕ) = 5 - 1 ∧
    (remainingTimeInInterval 7 ≤ 20 ∧
      sleepGuard 4 5 (remainingTimeInInterval 7) = false) :=
  ⟨by decide, by decide, scheduler_sleep_invariant 7 4 5 (by decide) (by decide)⟩

/- ---------------------------------------------------------------------
   Throttle Detector (src/unnamed/part_003, lines 158-160; and the
   baseline branch of monitor-metrics.ts, lines 286-296).
   part_003:
     `const throttlingThreshold = throttleIntervalMs * 1.5;
      const potentialThrottlingEvents = wallClockTimes.filter(t => t > throttlingThreshold).length;`
   monitor-metrics.ts:
     `let isThrottled = false;
      if (baselineIterationTimeMs > 0) {
        const expectedTime = baselineIterationTimeMs;
        const throttleFactor = elapsedSinceLastCheck / expectedTime;
        isThrottled = throttleFactor > 1.5;
      }`
   --------------------------------------------------------------------- -/

/-- `throttleIntervalMs * 1.5` (part_003 line 158). -/
def throttlingThreshold : ℚ := throttleIntervalMs * (3/2)

/-- `wallClockTimes.filter(t => t > throttlingThreshold).length` (part_003
lines 159-160). -/
def potentialThrottlingEvents (wallClockTimes : List ℚ) : ℕ :=
  (wallClockTimes.filter (fun t => throttlingThreshold < t)).length

/-- The baseline throttle detector of monitor-metrics.ts (lines 286-296):
false when no positive baseline is present, otherwise
`elapsedSinceLastCheck / baselineIterationTimeMs > 1.5`. -/
def isThrottled (baselineIterationTimeMs elapsedSinceLastCheck : ℚ) : Bool :=
  if 0 < baselineIterationTimeMs then
    decide ((3:ℚ)/2 < elapsedSinceLastCheck / baselineIterationTimeMs)
  else false

/-- The claim's combined classifier over the two sources: with no baseline,
the part_003 wall-clock test; with a baseline, the monitor-metrics ratio
test. -/
def throttleEvent (baseline : Option ℚ) (wallTimeMs : ℚ) : Prop :=
  match baseline with
  | none => throttlingThreshold < wallTimeMs
  | some b => isThrottled b wallTimeMs = true

/-- C4: an iteration is classified as a throttle event exactly when, with
no baseline, wall time strictly exceeds ScheduleQuantum * 1.5, or, with a
positive baseline, wall time / baseline strictly exceeds 1.5; a 35 ms
iteration with quantum 20 ms and no baseline is a ThrottleEvent, and a
10-iteration run whose iteration 4 takes 35 ms (the rest 10 ms) yields
exactly one potential throttling event. -/
theorem throttleEvent_classification (wall b : ℚ) (hb : 0 < b) :
    (throttleEvent none wall ↔ throttleIntervalMs * (3/2) < wall) ∧
    (throttleEvent (some b) wall ↔ (3:ℚ)/2 < wall / b) ∧
    throttleEvent none 35 ∧
    potentialThrottlingEvents [10, 10, 10, 35, 10, 10, 10, 10, 10, 10] = 1 := by
  refine ⟨Iff.rfl, ?_, ?_, ?_⟩
  · simp [throttleEvent, isThrottled, hb]
  · show throttlingThreshold < 35
    norm_num [throttlingThreshold, throttleIntervalMs]
  · simp [potentialThrottlingEvents, throttlingThreshold, throttleIntervalMs]
    norm_num

/-- Witness for C4 at wall time 35 ms and baseline 20 ms. -/
theorem throttleEvent_classification_witness :
    (0 : ℚ) < 20 ∧ throttleEvent none 35 ∧ (throttleEvent (some 20) 35 ↔ (3:ℚ)/2 < 35 / 20) :=
  ⟨by norm_num, (throttleEvent_classification 35 20 (by norm_num)).2.2.1,
    (throttleEvent_classification 35 20 (by norm_num)).2.1⟩

/- ---------------------------------------------------------------------
   ||-defaulted invocation-event fields.
   part_003 lines 24-25, 42:
     `const calibrationCpuTimeFor100KBMs = event.calibrationCpuTimeFor100KBMs || 3.6;
      const calibrationDataSizeKB = event.calibrationDataSizeKB || 100;
      const testDurationMs = event.testDurationMs || 5000;`
   monitor-metrics.ts lines 120-135:
     `const testDurationMs = event.testDurationMs || (isCalibration ? 10000 : 5000);
      const dataSize = event.dataSize || 100 * 1024;`
   A numeric field is either absent (undefined, falsy) or a finite number;
   among finite numbers exactly 0 is falsy, so `x || d` is modelled on
   `Option ℚ` as: absent or zero gives the default d.
   --------------------------------------------------------------------- -/

/-- JavaScript `v || d` for an optional finite numeric field `v`:
absent and 0 are falsy and yield the default. -/
def numOrDefault (v : Option ℚ) (d : ℚ) : ℚ :=
  match v with
  | none => d
  | some x => if x = 0 then d else x

/-- `event.calibrationCpuTimeFor100KBMs || 3.6` (part_003 line 24). -/
def calibrationCpuTimeFor100KBMsOf (v : Option ℚ) : ℚ :=
  numOrDefault v (36/10)

/-- `event.testDurationMs || (isCalibration ? 10000 : 5000)`
(monitor-metrics.ts line 124; part_003 line 42 is the isCalibration = false
case). -/
def testDurationMsOf (isCalibration : Bool) (v : Option ℚ) : ℚ :=
  numOrDefault v (if isCalibration then 10000 else 5000)

/-- `event.dataSize || 100 * 1024` (monitor-metrics.ts line 128). -/
def dataSizeOf (v : Option ℚ) : ℚ :=
  numOrDefault v (100 * 1024)

/-- C10: ||-defaulting treats a supplied 0 exactly like an absent field:
calibrationCpuTimeFor100KBMs = 0 becomes the default 3.6 — so the divisor of
the size computation is never 0, whatever the caller supplies — and
testDurationMs = 0 becomes 5000 (10000 when isCalibration), dataSize = 0
becomes 102400. -/
theorem event_defaults_zero_is_absent (v : Option ℚ) (ic : Bool) :
    calibrationCpuTimeFor100KBMsOf (some 0) = 36/10 ∧
    calibrationCpuTimeFor100KBMsOf (some 0) = calibrationCpuTimeFor100KBMsOf none ∧
    calibrationCpuTimeFor100KBMsOf v ≠ 0 ∧
    testDurationMsOf ic (some 0) = (if ic then 10000 else 5000) ∧
    dataSizeOf (some 0) = 102400 := by
  refine ⟨rfl, rfl, ?_, rfl, by norm_num [dataSizeOf, numOrDefault]⟩
  cases v with
  | none => norm_num [calibrationCpuTimeFor100KBMsOf, numOrDefault]
  | some x =>
    by_cases hx : x = 0 <;>
      simp [calibrationCpuTimeFor100KBMsOf, numOrDefault, hx]

/- ---------------------------------------------------------------------
   Calibration Engine (monitor-metrics.ts, calibration branch).
   Warmup loop (records nothing):
     `for (let i = 0; i < warmupIterations; i++) { burnCpu(); }`
   Measurement loop pushes one `{iterationTimeMs, cpuTimeMs}` sample per
   iteration into `calibrationData`, then:
     `const totalIterationTime = calibrationData.reduce((sum, data) => sum + data.iterationTimeMs, 0);
      const totalCpuTime = calibrationData.reduce((sum, data) => sum + data.cpuTimeMs, 0);
      results.calibrationResults.averageIterationTimeMs = totalIterationTime / calibrationData.length;
      results.calibrationResults.averageCpuTimePerIterationMs = totalCpuTime / calibrationData.length;`
   --------------------------------------------------------------------- -/

/-- One entry of `calibrationData`. -/
structure CalibSample where
  iterationTimeMs : ℚ
  cpuTimeMs : ℚ
deriving DecidableEq, Repr

/-- `calibrationData.reduce((sum, data) => sum + data.cpuTimeMs, 0)`. -/
def totalCpuTime (calibrationData : List CalibSample) : ℚ :=
  calibrationData.foldl (fun sum d => sum + d.cpuTimeMs) 0

/-- `calibrationData.reduce((sum, data) => sum + data.iterationTimeMs, 0)`. -/
def totalIterationTime (calibrationData : List CalibSample) : ℚ :=
  calibrationData.foldl (fun sum d => sum + d.iterationTimeMs) 0

/-- `totalCpuTime / calibrationData.length` — the CalibrationBaseline. -/
def averageCpuTimePerIterationMs (calibrationData : List CalibSample) : JsNum :=
  jsDiv (totalCpuTime calibrationData) (calibrationData.length : ℚ)

/-- `totalIterationTime / calibrationData.length`. -/
def averageIterationTimeMs (calibrationData : List CalibSample) : JsNum :=
  jsDiv (totalIterationTime calibrationData) (calibrationData.length : ℚ)

/-- The measurement phase: the warmup loop body is `burnCpu()` alone and
appends nothing to `calibrationData`; the measurement loop records one
sample per iteration, `measure i` being the timings the Clock Source
reports for iteration i. -/
def runCalibrationData (warmupIterations : ℕ) (measure : ℕ → CalibSample)
    (calibrationIterations : ℕ) : List CalibSample :=
  (List.range calibrationIterations).map measure

/-- `foldl` of the JS reduce is the list sum. -/
theorem totalCpuTime_eq_sum (calibrationData : List CalibSample) :
    totalCpuTime calibrationData = (calibrationData.map CalibSample.cpuTimeMs).sum := by
  have haux : ∀ (l : List CalibSample) (a : ℚ),
      l.foldl (fun sum d => sum + d.cpuTimeMs) a = a + (l.map CalibSample.cpuTimeMs).sum := by
    intro l
    induction l with
    | nil => intro a; simp
    | cons x xs ih =>
      intro a
      simp [List.foldl_cons, ih, add_assoc]
  simpa using haux calibrationData 0

/-- C5: the calibration baseline is exactly the arithmetic mean of the
recorded samples' cpuTimeMs, invariant under any permutation of the sample
sequence, and the warmup executions contribute no samples (the recorded
data, hence the baseline, does not depend on warmupIterations). -/
theorem calibration_baseline_mean (calibrationData calibrationData' : List CalibSample)
    (w w' n : ℕ) (measure : ℕ → CalibSample)
    (hperm : calibrationData.Perm calibrationData') (hne : calibrationData ≠ []) :
    averageCpuTimePerIterationMs calibrationData =
      JsNum.num ((calibrationData.map CalibSample.cpuTimeMs).sum / calibrationData.length) ∧
    averageCpuTimePerIterationMs calibrationData =
      averageCpuTimePerIterationMs calibrationData' ∧
    runCalibrationData w measure n = runCalibrationData w' measure n := by
  have hlen : (calibrationData.length : ℚ) ≠ 0 := by
    simpa using hne
  refine ⟨?_, ?_, rfl⟩
  · rw [averageCpuTimePerIterationMs, jsDiv, if_neg hlen, totalCpuTime_eq_sum]
  · have hsum : totalCpuTime calibrationData = totalCpuTime calibrationData' := by
      rw [totalCpuTime_eq_sum, totalCpuTime_eq_sum]
      exact List.Perm.sum_eq (hperm.map CalibSample.cpuTimeMs)
    rw [averageCpuTimePerIterationMs, averageCpuTimePerIterationMs, hsum,
      hperm.length_eq]

/-- Witness for C5 on the two-sample sequence [(1,2), (3,4)] and its swap. -/
theorem calibration_baseline_mean_witness :
    ([⟨1, 2⟩, ⟨3, 4⟩] : List CalibSample).Perm [⟨3, 4⟩, ⟨1, 2⟩] ∧
    ([⟨1, 2⟩, ⟨3, 4⟩] : List CalibSample) ≠ [] ∧
    averageCpuTimePerIterationMs [⟨1, 2⟩, ⟨3, 4⟩] =
      JsNum.num ((([⟨1, 2⟩, ⟨3, 4⟩] : List CalibSample).map CalibSample.cpuTimeMs).sum / 2) ∧
    averageCpuTimePerIterationMs [⟨1, 2⟩, ⟨3, 4⟩] =
      averageCpuTimePerIterationMs [⟨3, 4⟩, ⟨1, 2⟩] := by
  have h := calibration_baseline_mean [⟨1, 2⟩, ⟨3, 4⟩] [⟨3, 4⟩, ⟨1, 2⟩] 0 50 3
    (fun _ => ⟨1, 1⟩) (List.Perm.swap _ _ _) (by simp)
  exact ⟨List.Perm.swap _ _ _, by simp, h.1, h.2.1⟩

/- ---------------------------------------------------------------------
   The calibration result record (monitor-metrics.ts lines 140-160,
   249-255).  The `results` object literal has exactly the fields listed
   below; `calibrationResults` has exactly its four fields.  No field of
   either record carries a reliability marking, and nothing in the
   calibration branch reads the environment's CPU share.
   --------------------------------------------------------------------- -/

/-- The field names of the `results` object literal returned by the
monitor-metrics handler, in source order. -/
def resultsFields : List String :=
  ["startTime", "endTime", "totalWallClockTime", "totalCpuTime",
   "throttlingRatio", "cpuTimeUsed", "totalIterations", "throttlingEvents",
   "isCalibration", "calibrationResults", "baselineIterationTimeMs",
   "baselineCpuTimePerIterationMs", "memorySize", "functionName",
   "functionVersion"]

/-- The field names of the `calibrationResults` object literal, in source
order. -/
def calibrationResultFields : List String :=
  ["averageIterationTimeMs", "averageCpuTimePerIterationMs",
   "totalWarmupIterations", "totalCalibrationIterations"]

/-- The `calibrationResults` record after the handler fills in the averages
(monitor-metrics.ts lines 152-157 initialise it, lines 249-252 set the two
averages from `calibrationData`). -/
structure CalibrationResults where
  averageIterationTimeMs : JsNum
  averageCpuTimePerIterationMs : JsNum
  totalWarmupIterations : ℕ
  totalCalibrationIterations : ℕ
deriving DecidableEq, Repr

/-- The calibration output as a function of the loop counts and the
recorded samples; the environment's CPU share is not an input anywhere in
the calibration branch. -/
def calibrationResultsOf (warmupIterations calibrationIterations : ℕ)
    (calibrationData : List CalibSample) : CalibrationResults :=
  { averageIterationTimeMs := averageIterationTimeMs calibrationData
    averageCpuTimePerIterationMs := averageCpuTimePerIterationMs calibrationData
    totalWarmupIterations := warmupIterations
    totalCalibrationIterations := calibrationIterations }

/-- C6 counterexample: with zero recorded samples the engine does return a
result (the record below is produced, its averages being the JavaScript
0/0 = NaN), but that result is not flagged as unreliable — no field named
"unreliable" exists anywhere in the returned records, so the flagging the
claim requires cannot occur. -/
theorem calibration_no_unreliable_flag :
    calibrationResultsOf 50 500 [] =
      ⟨JsNum.nan, JsNum.nan, 50, 500⟩ ∧
    "unreliable" ∉ resultsFields ∧
    "unreliable" ∉ calibrationResultFields := by
  refine ⟨rfl, ?_, ?_⟩ <;> decide

/-- C6 (amended): a calibration run with zero recorded samples, or executed
on any environment whatever its CPU share (the share is not an input of the
calibration branch), still returns a result — with zero samples the
averages are NaN — but nothing in the result marks it unreliable; the
adaptive caller instead substitutes the documented default baseline
3.6 ms per 100 KB whenever its event carries no (or a zero) calibration
value. -/
theorem calibration_returns_unflagged_result (w c : ℕ) :
    (calibrationResultsOf w c []).averageCpuTimePerIterationMs = JsNum.nan ∧
    (calibrationResultsOf w c []).averageIterationTimeMs = JsNum.nan ∧
    "unreliable" ∉ resultsFields ∧
    calibrationCpuTimeFor100KBMsOf none = 36/10 ∧
    calibrationCpuTimeFor100KBMsOf (some 0) = 36/10 := by
  exact ⟨rfl, rfl, by decide, rfl, rfl⟩

/- ---------------------------------------------------------------------
   C7 — proportionality of the Adaptive Sizer in CpuShare.
   --------------------------------------------------------------------- -/

/-- For any rational, doubling the floor of the half stays within 1 of the
floor, through the `max 1` clamp as well. -/
theorem max_one_floor_half (q : ℚ) :
    |max 1 (Int.floor q) - 2 * max 1 (Int.floor (q / 2))| ≤ 1 := by
  have h1 : 2 * Int.floor (q / 2) ≤ Int.floor q := by
    apply Int.le_floor.mpr
    push_cast
    have := Int.floor_le (q / 2)
    linarith
  have h2 : Int.floor q ≤ 2 * Int.floor (q / 2) + 1 := by
    have hlt : q < ((2 * Int.floor (q / 2) + 2 : ℤ) : ℚ) := by
      have := Int.lt_floor_add_one (q / 2)
      push_cast
      linarith
    have := Int.floor_lt.mpr hlt
    omega
  rw [abs_le]
  omega

/-- C7 counterexample: at CpuShare = 0.4 (baseline 3.6, reference 100,
quantum 20) the sizer yields 188 KB, while at the halved share 0.2 the
safety factor drops from 0.85 to 0.55 and the sizer yields 61 KB — 2·61 =
122 is 66 away from 188, far outside integer floor rounding, so halving the
share does not approximately halve the size. -/
theorem halving_cpuShare_counterexample :
    calibratedDataSizeKB (2/5) 20 (36/10) 100 = 188 ∧
    calibratedDataSizeKB ((2/5)/2) 20 (36/10) 100 = 61 ∧
    1 < |calibratedDataSizeKB (2/5) 20 (36/10) 100 -
          2 * calibratedDataSizeKB ((2/5)/2) 20 (36/10) 100| := by
  have e1 : ((allowedWorkloadPerInterval (2/5) 20 / (36/10)) * 100 : ℚ) = 1700/9 := by
    norm_num [allowedWorkloadPerInterval, safetyFactor]
  have e2 : ((allowedWorkloadPerInterval ((2/5)/2) 20 / (36/10)) * 100 : ℚ) = 550/9 := by
    norm_num [allowedWorkloadPerInterval, safetyFactor]
  have f1 : Int.floor ((1700 : ℚ)/9) = 188 := by
    rw [Int.floor_eq_iff] <;> norm_num
  have f2 : Int.floor ((550 : ℚ)/9) = 61 := by
    rw [Int.floor_eq_iff] <;> norm_num
  have s1 : calibratedDataSizeKB (2/5) 20 (36/10) 100 = 188 := by
    unfold calibratedDataSizeKB
    rw [e1, f1]
    norm_num
  have s2 : calibratedDataSizeKB ((2/5)/2) 20 (36/10) 100 = 61 := by
    unfold calibratedDataSizeKB
    rw [e2, f2]
    norm_num
  refine ⟨s1, s2, ?_⟩
  rw [s1, s2]
  norm_num

/-- C7 (amended): halving CpuShare approximately halves the calibrated size
— twice the halved-share size is within 1 unit of the full-share size —
provided CpuShare and CpuShare/2 fall on the same side of the 0.3
safety-factor cutoff (CpuShare < 0.3, or CpuShare/2 ≥ 0.3 i.e. CpuShare ≥
0.6); when the halving crosses the cutoff the factor switches from 0.85 to
0.55 and the size drops to about 0.32× instead of 0.5×. -/
theorem halving_cpuShare_same_factor (c b r : ℚ)
    (h : c < 3/10 ∨ 3/10 ≤ c/2) :
    |calibratedDataSizeKB c 20 b r - 2 * calibratedDataSizeKB (c/2) 20 b r| ≤ 1 := by
  have hsf : safetyFactor (c/2) = safetyFactor c := by
    unfold safetyFactor
    rcases h with h | h
    · rw [if_pos h, if_pos (by linarith)]
    · rw [if_neg (by linarith), if_neg (by linarith)]
  have harg : ((allowedWorkloadPerInterval (c/2) 20 / b) * r : ℚ)
      = ((allowedWorkloadPerInterval c 20 / b) * r) / 2 := by
    unfold allowedWorkloadPerInterval
    rw [hsf]
    ring
  unfold calibratedDataSizeKB
  rw [harg]
  exact max_one_floor_half _

/-- Witness for the amended C7 at CpuShare 0.2, baseline 3.6, reference 100
(both 0.2 and 0.1 are below the 0.3 cutoff). -/
theorem halving_cpuShare_same_factor_witness :
    ((1/5 : ℚ) < 3/10 ∨ (3/10 : ℚ) ≤ (1/5)/2) ∧
    |calibratedDataSizeKB (1/5) 20 (36/10) 100 -
      2 * calibratedDataSizeKB ((1/5)/2) 20 (36/10) 100| ≤ 1 :=
  ⟨Or.inl (by norm_num),
    halving_cpuShare_same_factor (1/5) (36/10) 100 (Or.inl (by norm_num))⟩

/- ---------------------------------------------------------------------
   Result Aggregator (src/unnamed/part_003, lines 138-151 and 168-184).
   `const avgCpuTime = cpuTimes.reduce((a, b) => a + b, 0) / cpuTimes.length;
    const maxCpuTime = Math.max(...cpuTimes);
    const minCpuTime = Math.min(...cpuTimes);`       (same for wall clock)
   `const cpuUtilizationPercent = (avgCpuTime / allowedWorkloadPerInterval) * 100;`
   and the returned `stats` object.  On an empty run the JavaScript values
   are: average = 0/0 = NaN, Math.max() = -Infinity, Math.min() = Infinity.
   --------------------------------------------------------------------- -/

/-- `values.reduce((a, b) => a + b, 0) / values.length`. -/
def avgOf (values : List ℚ) : JsNum :=
  jsDiv (values.foldl (fun a b => a + b) 0) (values.length : ℚ)

/-- `Math.max(...values)`: -Infinity on an empty spread. -/
def jsMaxOf (values : List ℚ) : JsNum :=
  match values with
  | [] => JsNum.neginf
  | x :: xs => JsNum.num (xs.foldl max x)

/-- `Math.min(...values)`: Infinity on an empty spread. -/
def jsMinOf (values : List ℚ) : JsNum :=
  match values with
  | [] => JsNum.inf
  | x :: xs => JsNum.num (xs.foldl min x)

/-- JavaScript division of an already-computed value by a finite number. -/
def jsDivJ (a : JsNum) (b : ℚ) : JsNum :=
  match a with
  | JsNum.num q => jsDiv q b
  | JsNum.nan => JsNum.nan
  | JsNum.inf => if b < 0 then JsNum.neginf else JsNum.inf
  | JsNum.neginf => if b < 0 then JsNum.inf else JsNum.neginf

/-- JavaScript multiplication of an already-computed value by 100. -/
def jsMul100 (a : JsNum) : JsNum :=
  match a with
  | JsNum.num q => JsNum.num (q * 100)
  | x => x

/-- The `stats` object of the returned body (part_003 lines 172-183). -/
structure Stats where
  avgCpuTime : JsNum
  minCpuTime : JsNum
  maxCpuTime : JsNum
  avgWallClockTime : JsNum
  minWallClockTime : JsNum
  maxWallClockTime : JsNum
  potentialThrottlingEvents : ℕ
  allowedCpuTimePerInterval : ℚ
  cpuUtilizationPercent : JsNum
  calibratedDataSizeKB : ℤ
deriving DecidableEq, Repr

/-- The aggregation of part_003 lines 138-160 and 172-183, as a function of
the per-iteration cpu and wall-clock time sequences. -/
def statsOf (cpuTimes wallClockTimes : List ℚ) (allowed : ℚ) (sizeKB : ℤ) : Stats :=
  { avgCpuTime := avgOf cpuTimes
    minCpuTime := jsMinOf cpuTimes
    maxCpuTime := jsMaxOf cpuTimes
    avgWallClockTime := avgOf wallClockTimes
    minWallClockTime := jsMinOf wallClockTimes
    maxWallClockTime := jsMaxOf wallClockTimes
    potentialThrottlingEvents := potentialThrottlingEvents wallClockTimes
    allowedCpuTimePerInterval := allowed
    cpuUtilizationPercent := jsMul100 (jsDivJ (avgOf cpuTimes) allowed)
    calibratedDataSizeKB := sizeKB }

/-- `results.totalIterations` is incremented once per executed iteration,
so it equals the length of the recorded iteration sequence. -/
def totalIterationsOf (iterationResults : List (ℚ × ℚ)) : ℕ :=
  iterationResults.length

/-- C8: aggregating an empty iteration sequence is a total computation (no
exception): every per-iteration statistic is the non-finite JavaScript
value (NaN averages and utilization, ±Infinity min/max — all serialized as
null/undefined), the throttle-event count is 0 and the iteration count is
0. -/
theorem stats_empty_run (allowed : ℚ) (sizeKB : ℤ) :
    statsOf [] [] allowed sizeKB =
      { avgCpuTime := JsNum.nan
        minCpuTime := JsNum.inf
        maxCpuTime := JsNum.neginf
        avgWallClockTime := JsNum.nan
        minWallClockTime := JsNum.inf
        maxWallClockTime := JsNum.neginf
        potentialThrottlingEvents := 0
        allowedCpuTimePerInterval := allowed
        cpuUtilizationPercent := JsNum.nan
        calibratedDataSizeKB := sizeKB } ∧
    totalIterationsOf [] = 0 :=
  ⟨rfl, rfl⟩
